import Mathlib

/-!
Verification development for the react-modular-monolith navigation core:
the module registry (`modules/registry.ts`), the module manifests, the
sidebar configuration and the access-control filter `getVisibleNav`
(`root/navigation.ts`), shallowly embedded in Lean.
-/

namespace ModularMonolith

/-- Modelled from the spec: `UserRole` is declared in `shared/auth`, which is
absent from the sources; the spec calls it a small finite enumeration, and the
manifests reference exactly the roles `admin`, `editor` and `viewer`. -/
inductive UserRole where
  | admin
  | editor
  | viewer
deriving DecidableEq, Repr

/-- Modelled from the spec: `PlanTier` is declared in `shared/auth`, which is
absent from the sources; the spec calls it a small finite enumeration, and the
manifests reference the tiers `starter` and `pro`; a `free` base tier is
included for the unrestricted plans the README mentions. No claim depends on
the exact set of constructors, only on `minPlan` carrying one of them. -/
inductive PlanTier where
  | free
  | starter
  | pro
deriving DecidableEq, Repr

/-- `ModuleManifest` from `shared/types/module-manifest.ts`: `name` is
required, `allowedRoles`, `minPlan` and `public` are optional (`Option`
models an absent TypeScript field).  The `routes` field is omitted: it holds
framework route objects that no navigation or registry logic inspects. -/
structure ModuleManifest where
  name : String
  allowedRoles : Option (List UserRole) := none
  minPlan : Option PlanTier := none
  public : Option Bool := none
deriving DecidableEq, Repr

/-- Modelled from the spec: `modules/auth/index.ts` is imported by the
registry but absent from the sources.  The README lists `auth` among the
modules ("Public auth flows (login, register, reset)") and the module
template notes that `public: true` marks "public modules (e.g. auth) that
render outside the shell", with no role or plan gate. -/
def authModule : ModuleManifest :=
  { name := "auth", public := some true }

/-- `dashboardModule` from `modules/dashboard/index.ts`. -/
def dashboardModule : ModuleManifest :=
  { name := "dashboard", allowedRoles := some [.admin, .editor, .viewer] }

/-- `productsModule` from `modules/products/index.ts`. -/
def productsModule : ModuleManifest :=
  { name := "products", allowedRoles := some [.admin, .editor],
    minPlan := some .starter }

/-- `usersModule` from `modules/users/index.ts`. -/
def usersModule : ModuleManifest :=
  { name := "users", allowedRoles := some [.admin], minPlan := some .pro }

/-- `settingsModule` from `modules/settings/index.ts`. -/
def settingsModule : ModuleManifest :=
  { name := "settings", allowedRoles := some [.admin, .editor] }

/-- The central module registry `modules` from `modules/registry.ts`. -/
def modules : List ModuleManifest :=
  [authModule, dashboardModule, productsModule, usersModule, settingsModule]

/-- JavaScript truthiness of the optional `public` flag:
`undefined` and `false` are falsy, `true` is truthy. -/
def publicTruthy (m : ModuleManifest) : Bool :=
  m.public.getD false

/-- `publicModules = modules.filter((m) => m.public)` from
`modules/registry.ts`. -/
def publicModules : List ModuleManifest :=
  modules.filter publicTruthy

/-- `protectedModules = modules.filter((m) => !m.public)` from
`modules/registry.ts`. -/
def protectedModules : List ModuleManifest :=
  modules.filter (fun m => !publicTruthy m)

/-- `NavItem` from `root/navigation.ts`. -/
structure NavItem where
  «to» : String
  label : String
  module : String
deriving DecidableEq, Repr

/-- The centralized sidebar configuration `sidebarNav` from
`root/navigation.ts`. -/
def sidebarNav : List NavItem :=
  [ { module := "dashboard", «to» := "/dashboard", label := "Dashboard" },
    { module := "products",  «to» := "/products",  label := "Products" },
    { module := "users",     «to» := "/users",     label := "Users" },
    { module := "settings",  «to» := "/settings",  label := "Settings" } ]

/-- The association list underlying
`new Map(registry.map((m) => [m.name, m]))`, for an arbitrary registry. -/
def moduleMapOf (registry : List ModuleManifest) :
    List (String × ModuleManifest) :=
  registry.map (fun m => (m.name, m))

/-- `moduleMap = new Map(modules.map((m) => [m.name, m]))` from
`root/navigation.ts`. -/
def moduleMap : List (String × ModuleManifest) :=
  moduleMapOf modules

/-- `Map.get`: a JavaScript `Map` built from an entry list keeps, for a
duplicated key, the value inserted last, so the lookup scans the entries in
reverse insertion order. -/
def jsMapGet (entries : List (String × ModuleManifest)) (k : String) :
    Option ModuleManifest :=
  entries.reverse.lookup k

/-- The filter callback of `getVisibleNav` (`root/navigation.ts`), over an
arbitrary registry:
`const manifest = moduleMap.get(item.module); if (!manifest) return false;`
then the two guard clauses on `allowedRoles` and `minPlan`.
`manifest.allowedRoles?.length` is truthy exactly when the field is present
and the list non-empty; `manifest.minPlan` is truthy exactly when present. -/
def navItemVisibleOf (registry : List ModuleManifest)
    (hasRole : List UserRole → Bool) (hasPlan : PlanTier → Bool)
    (item : NavItem) : Bool :=
  match jsMapGet (moduleMapOf registry) item.module with
  | none => false
  | some manifest =>
    if (match manifest.allowedRoles with
        | some rs => rs.length != 0 && !hasRole rs
        | none => false) then false
    else if (match manifest.minPlan with
        | some p => !hasPlan p
        | none => false) then false
    else true

/-- `getVisibleNav` over an arbitrary sidebar configuration and registry:
`nav.filter((item) => ...)`. -/
def getVisibleNavOf (nav : List NavItem) (registry : List ModuleManifest)
    (hasRole : List UserRole → Bool) (hasPlan : PlanTier → Bool) :
    List NavItem :=
  nav.filter (navItemVisibleOf registry hasRole hasPlan)

/-- `getVisibleNav` from `root/navigation.ts`, specialized to the
module-level constants `sidebarNav` and `moduleMap` it closes over. -/
def getVisibleNav (hasRole : List UserRole → Bool)
    (hasPlan : PlanTier → Bool) : List NavItem :=
  getVisibleNavOf sidebarNav modules hasRole hasPlan

/-- The role gate as a proposition: when `allowedRoles` is present and
non-empty, `hasRole` accepts it. -/
def roleGateOk (hasRole : List UserRole → Bool) (m : ModuleManifest) : Prop :=
  ∀ rs, m.allowedRoles = some rs → rs ≠ [] → hasRole rs = true

/-- The plan gate as a proposition: when `minPlan` is present, `hasPlan`
accepts it. -/
def planGateOk (hasPlan : PlanTier → Bool) (m : ModuleManifest) : Prop :=
  ∀ p, m.minPlan = some p → hasPlan p = true

/-! ### Lemmas about the association-list lookup -/

theorem lookup_eq_none_of_no_key (l : List (String × ModuleManifest))
    (k : String) (h : ∀ p ∈ l, p.1 ≠ k) : l.lookup k = none := by
  induction l with
  | nil => rfl
  | cons p t ih =>
    have hp : p.1 ≠ k := h p (by simp)
    have hbeq : (k == p.1) = false := by
      simp [hp.symm]
    have hlk : List.lookup k (p :: t) = List.lookup k t := by
      obtain ⟨a, b⟩ := p
      simp [List.lookup, hbeq]
    rw [hlk]
    exact ih (fun q hq => h q (List.mem_cons_of_mem _ hq))

theorem lookup_eq_some_iff (l : List (String × ModuleManifest))
    (k : String) (m : ModuleManifest)
    (hnd : (l.map Prod.fst).Nodup) : l.lookup k = some m ↔ (k, m) ∈ l := by
  induction l with
  | nil => simp [List.lookup]
  | cons p t ih =>
    obtain ⟨a, b⟩ := p
    simp only [List.map_cons, List.nodup_cons, List.mem_map] at hnd
    obtain ⟨ha, hnd'⟩ := hnd
    cases hk : (k == a) with
    | true =>
      have hka : k = a := by simpa using hk
      subst hka
      constructor
      · intro hb
        have hmb : b = m := by simpa [List.lookup] using hb
        subst hmb
        exact List.mem_cons_self _ _
      · intro hmem
        rcases List.mem_cons.mp hmem with heq | hmem'
        · have hmb : m = b := ((Prod.mk.injEq ..).mp heq).2
          subst hmb
          simp [List.lookup]
        · exact absurd ⟨(k, m), hmem', rfl⟩ ha
    | false =>
      have hka : k ≠ a := by simpa using hk
      have hlk : List.lookup k ((a, b) :: t) = List.lookup k t := by
        simp [List.lookup, hk]
      rw [hlk, ih hnd']
      constructor
      · intro hmem
        exact List.mem_cons_of_mem _ hmem
      · intro hmem
        rcases List.mem_cons.mp hmem with heq | hmem'
        · exact absurd ((Prod.mk.injEq ..).mp heq).1 hka
        · exact hmem'

theorem jsMapGet_eq_none_of_unregistered (registry : List ModuleManifest)
    (k : String) (h : ∀ m ∈ registry, m.name ≠ k) :
    jsMapGet (moduleMapOf registry) k = none := by
  apply lookup_eq_none_of_no_key
  intro p hp
  rw [List.mem_reverse, moduleMapOf, List.mem_map] at hp
  obtain ⟨m, hm, rfl⟩ := hp
  exact h m hm

theorem jsMapGet_moduleMap_some_iff (k : String) (m : ModuleManifest) :
    jsMapGet moduleMap k = some m ↔ m ∈ modules ∧ m.name = k := by
  rw [jsMapGet, lookup_eq_some_iff _ _ _ (by decide), List.mem_reverse,
    moduleMap, moduleMapOf, List.mem_map]
  constructor
  · rintro ⟨m', hm', heq⟩
    obtain ⟨rfl, rfl⟩ := Prod.mk.injEq .. |>.mp heq
    exact ⟨hm', rfl⟩
  · rintro ⟨hm, rfl⟩
    exact ⟨m, hm, rfl⟩

/-! ### Characterization of the filter callback -/

theorem navItemVisibleOf_eq_true_iff (registry : List ModuleManifest)
    (hR : List UserRole → Bool) (hP : PlanTier → Bool) (item : NavItem) :
    navItemVisibleOf registry hR hP item = true ↔
      ∃ m, jsMapGet (moduleMapOf registry) item.module = some m ∧
        roleGateOk hR m ∧ planGateOk hP m := by
  unfold navItemVisibleOf
  cases hm : jsMapGet (moduleMapOf registry) item.module with
  | none => simp
  | some m =>
    obtain ⟨nm, ar, mp, pub⟩ := m
    cases ar with
    | none =>
      cases mp with
      | none => simp [roleGateOk, planGateOk]
      | some p => cases hp : hP p <;> simp [roleGateOk, planGateOk, hp]
    | some rs =>
      cases rs with
      | nil =>
        cases mp with
        | none => simp [roleGateOk, planGateOk]
        | some p => cases hp : hP p <;> simp [roleGateOk, planGateOk, hp]
      | cons a l =>
        cases hr : hR (a :: l) with
        | false =>
          cases mp with
          | none => simp [roleGateOk, planGateOk, hr]
          | some p => simp [roleGateOk, planGateOk, hr]
        | true =>
          cases mp with
          | none => simp [roleGateOk, planGateOk, hr]
          | some p => cases hp : hP p <;> simp [roleGateOk, planGateOk, hr, hp]

theorem moduleMap_eq : moduleMapOf modules = moduleMap := rfl

/-- The dashboard sidebar entry, used as a concrete instance. -/
def dashItem : NavItem :=
  { module := "dashboard", «to» := "/dashboard", label := "Dashboard" }

/-! ### Claims -/

/-- C1: for all predicates `hasRole` and `hasPlan`, a `sidebarNav` entry is
in `getVisibleNav hasRole hasPlan` iff the registry holds a manifest named
like the entry's `module` field whose role gate (when `allowedRoles` is
present and non-empty) and plan gate (when `minPlan` is present) are
satisfied. -/
theorem spec_c1_sidebar_visibility_is_access_derivation
    (hasRole : List UserRole → Bool) (hasPlan : PlanTier → Bool)
    (e : NavItem) (he : e ∈ sidebarNav) :
    e ∈ getVisibleNav hasRole hasPlan ↔
      ∃ m ∈ modules, m.name = e.module ∧
        roleGateOk hasRole m ∧ planGateOk hasPlan m := by
  rw [getVisibleNav, getVisibleNavOf, List.mem_filter,
    navItemVisibleOf_eq_true_iff, moduleMap_eq]
  constructor
  · rintro ⟨-, m, hm, hrole, hplan⟩
    rw [jsMapGet_moduleMap_some_iff] at hm
    exact ⟨m, hm.1, hm.2, hrole, hplan⟩
  · rintro ⟨m, hmem, hname, hrole, hplan⟩
    refine ⟨he, m, ?_, hrole, hplan⟩
    rw [jsMapGet_moduleMap_some_iff]
    exact ⟨hmem, hname⟩

/-- Witness for C1 at the dashboard entry and the all-true predicates. -/
theorem spec_c1_witness :
    dashItem ∈ sidebarNav ∧
      (dashItem ∈ getVisibleNav (fun _ => true) (fun _ => true) ↔
        ∃ m ∈ modules, m.name = dashItem.module ∧
          roleGateOk (fun _ => true) m ∧ planGateOk (fun _ => true) m) :=
  ⟨by decide,
    spec_c1_sidebar_visibility_is_access_derivation
      (fun _ => true) (fun _ => true) dashItem (by decide)⟩

/-- C2: an entry whose `module` field names no registered manifest is
excluded from the result, and every other entry's visibility is unaffected
by the dangling one: filtering the dangling entry out of the configuration
changes nothing for the others.  (The lookup-miss path returns `false` from
the callback; no error value arises.) -/
theorem spec_c2_missing_manifest_silently_excluded
    (nav : List NavItem) (registry : List ModuleManifest) (item : NavItem)
    (hasRole : List UserRole → Bool) (hasPlan : PlanTier → Bool)
    (hmissing : ∀ m ∈ registry, m.name ≠ item.module) :
    item ∉ getVisibleNavOf nav registry hasRole hasPlan ∧
      ∀ other : NavItem, other ≠ item →
        (other ∈ getVisibleNavOf (nav.filter (fun it => it != item)) registry
            hasRole hasPlan ↔
          other ∈ getVisibleNavOf nav registry hasRole hasPlan) := by
  have hvis : navItemVisibleOf registry hasRole hasPlan item = false := by
    unfold navItemVisibleOf
    rw [jsMapGet_eq_none_of_unregistered registry _ hmissing]
  constructor
  · intro hmem
    have hv := (List.mem_filter.mp hmem).2
    rw [hvis] at hv
    exact Bool.false_ne_true hv
  · intro other hne
    simp only [getVisibleNavOf, List.mem_filter, bne_iff_ne, ne_eq]
    constructor
    · rintro ⟨⟨hnav, -⟩, hv⟩
      exact ⟨hnav, hv⟩
    · rintro ⟨hnav, hv⟩
      exact ⟨⟨hnav, hne⟩, hv⟩

/-- A sidebar entry pointing at a module name absent from the registry. -/
def ghostItem : NavItem :=
  { module := "ghost", «to» := "/ghost", label := "Ghost" }

/-- Witness for C2: a dangling entry appended to the sidebar is excluded
and the others are untouched. -/
theorem spec_c2_witness :
    (∀ m ∈ modules, m.name ≠ ghostItem.module) ∧
      (ghostItem ∉ getVisibleNavOf (sidebarNav ++ [ghostItem]) modules
          (fun _ => true) (fun _ => true) ∧
        ∀ other : NavItem, other ≠ ghostItem →
          (other ∈ getVisibleNavOf
              ((sidebarNav ++ [ghostItem]).filter (fun it => it != ghostItem))
              modules (fun _ => true) (fun _ => true) ↔
            other ∈ getVisibleNavOf (sidebarNav ++ [ghostItem]) modules
              (fun _ => true) (fun _ => true))) :=
  ⟨by decide,
    spec_c2_missing_manifest_silently_excluded
      (sidebarNav ++ [ghostItem]) modules ghostItem
      (fun _ => true) (fun _ => true) (by decide)⟩

/-- C3: `getVisibleNav` is a total function of its two predicate arguments,
and extensionally equal predicates give equal results. -/
theorem spec_c3_pure_total_deterministic
    (hR hR' : List UserRole → Bool) (hP hP' : PlanTier → Bool)
    (h1 : ∀ rs, hR rs = hR' rs) (h2 : ∀ p, hP p = hP' p) :
    getVisibleNav hR hP = getVisibleNav hR' hP' := by
  rw [funext h1, funext h2]

/-- Witness for C3 at two syntactically distinct, extensionally equal
predicate pairs. -/
theorem spec_c3_witness :
    (∀ rs : List UserRole, (fun _ : List UserRole => true) rs
        = (fun _ : List UserRole => !false) rs) ∧
      (∀ p : PlanTier, (fun _ : PlanTier => true) p
        = (fun _ : PlanTier => !false) p) ∧
      getVisibleNav (fun _ => true) (fun _ => true)
        = getVisibleNav (fun _ => !false) (fun _ => !false) :=
  ⟨fun _ => rfl, fun _ => rfl,
    spec_c3_pure_total_deterministic _ _ _ _ (fun _ => rfl) (fun _ => rfl)⟩

/-- C4: the manifests in the registry have pairwise distinct names. -/
theorem spec_c4_module_names_unique :
    modules.Pairwise (fun a b => a.name ≠ b.name) := by decide

/-- C5: the visible navigation is always a subsequence of `sidebarNav`
(each result entry occurs in `sidebarNav`, in the same relative order)
and has no duplicates. -/
theorem spec_c5_result_is_sublist_of_sidebarNav
    (hR : List UserRole → Bool) (hP : PlanTier → Bool) :
    (getVisibleNav hR hP).Sublist sidebarNav ∧ (getVisibleNav hR hP).Nodup :=
  ⟨List.filter_sublist sidebarNav,
    List.Nodup.sublist (List.filter_sublist sidebarNav) (by decide)⟩

/-- The configuration state read by `getVisibleNav`: the sidebar list and
the registry, modelled as explicit state for the frame property. -/
structure NavConfig where
  sidebarNav : List NavItem
  modules : List ModuleManifest
deriving DecidableEq, Repr

/-- State-passing embedding of `getVisibleNav`: every operation in its body
(`Map.get`, `Array.prototype.filter`) reads the configuration and writes
nothing — `filter` allocates a fresh result array — so the translation
threads the configuration through unchanged. -/
def getVisibleNavSt (hasRole : List UserRole → Bool)
    (hasPlan : PlanTier → Bool) (st : NavConfig) :
    List NavItem × NavConfig :=
  (st.sidebarNav.filter (navItemVisibleOf st.modules hasRole hasPlan), st)

/-- C6: `getVisibleNav` leaves the configuration state (the `sidebarNav`
array, the `modules` registry and every manifest inside it) unchanged, and
over the program's actual configuration its fresh result list is exactly
`getVisibleNav`. -/
theorem spec_c6_frame_config_unchanged (hR : List UserRole → Bool)
    (hP : PlanTier → Bool) (st : NavConfig) :
    (getVisibleNavSt hR hP st).2 = st ∧
      (getVisibleNavSt hR hP ⟨sidebarNav, modules⟩).1 = getVisibleNav hR hP :=
  ⟨rfl, rfl⟩

/-- C7: `publicModules` and `protectedModules` partition the registry along
the truthiness of the optional `public` flag: `public = true` goes to the
first list, `false` or absent to the second, and every manifest lands in
exactly one. -/
theorem spec_c7_public_protected_partition :
    (∀ m ∈ modules,
      (m ∈ publicModules ↔ m.public = some true) ∧
      (m ∈ protectedModules ↔ (m.public = some false ∨ m.public = none))) ∧
    (∀ m ∈ modules, ¬(m ∈ publicModules ∧ m ∈ protectedModules)) ∧
    (∀ m ∈ modules, m ∈ publicModules ∨ m ∈ protectedModules) ∧
    publicModules.Sublist modules ∧ protectedModules.Sublist modules := by
  decide

/-- Witness for C7 at the auth manifest. -/
theorem spec_c7_witness :
    authModule ∈ modules ∧
      (authModule ∈ publicModules ↔ authModule.public = some true) :=
  ⟨by decide,
    (spec_c7_public_protected_partition.1 authModule (by decide)).1⟩

/-- C8: when the entry's manifest carries `allowedRoles = []`, the guard
`manifest.allowedRoles?.length` is falsy, so the role check is skipped:
visibility is independent of `hasRole` and reduces to membership plus the
`minPlan` check. -/
theorem spec_c8_empty_allowedRoles_means_unrestricted
    (registry : List ModuleManifest) (nav : List NavItem) (item : NavItem)
    (m : ModuleManifest) (hP : PlanTier → Bool)
    (hR hR' : List UserRole → Bool)
    (hm : jsMapGet (moduleMapOf registry) item.module = some m)
    (hroles : m.allowedRoles = some []) :
    (item ∈ getVisibleNavOf nav registry hR hP ↔
      item ∈ getVisibleNavOf nav registry hR' hP) ∧
    (item ∈ getVisibleNavOf nav registry hR hP ↔
      item ∈ nav ∧ planGateOk hP m) := by
  have key : ∀ hRx : List UserRole → Bool,
      navItemVisibleOf registry hRx hP item = true ↔ planGateOk hP m := by
    intro hRx
    rw [navItemVisibleOf_eq_true_iff]
    constructor
    · rintro ⟨m', hm', -, hplan⟩
      rw [hm] at hm'
      obtain rfl := (Option.some.injEq ..).mp hm'
      exact hplan
    · intro hplan
      refine ⟨m, hm, ?_, hplan⟩
      intro rs hrs hne
      rw [hroles] at hrs
      obtain rfl := (Option.some.injEq ..).mp hrs
      exact absurd rfl hne
  refine ⟨?_, ?_⟩
  · simp only [getVisibleNavOf, List.mem_filter]
    rw [key hR, key hR']
  · simp only [getVisibleNavOf, List.mem_filter]
    rw [key hR]

/-- A manifest with an explicitly empty `allowedRoles` list, as the module
template permits. -/
def demoModule : ModuleManifest :=
  { name := "demo", allowedRoles := some [], minPlan := some .pro }

/-- The sidebar entry linking to `demoModule`. -/
def demoItem : NavItem :=
  { module := "demo", «to» := "/demo", label := "Demo" }

/-- Witness for C8 on a one-module registry whose manifest has
`allowedRoles = []`. -/
theorem spec_c8_witness :
    (jsMapGet (moduleMapOf [demoModule]) demoItem.module = some demoModule ∧
        demoModule.allowedRoles = some []) ∧
      ((demoItem ∈ getVisibleNavOf [demoItem] [demoModule]
            (fun _ => true) (fun _ => true) ↔
          demoItem ∈ getVisibleNavOf [demoItem] [demoModule]
            (fun _ => false) (fun _ => true)) ∧
        (demoItem ∈ getVisibleNavOf [demoItem] [demoModule]
            (fun _ => true) (fun _ => true) ↔
          demoItem ∈ [demoItem] ∧ planGateOk (fun _ => true) demoModule)) :=
  ⟨⟨by decide, rfl⟩,
    spec_c8_empty_allowedRoles_means_unrestricted
      [demoModule] [demoItem] demoItem demoModule
      (fun _ => true) (fun _ => true) (fun _ => false) (by decide) rfl⟩

/-- C9: `getVisibleNav` is monotone in the two access predicates: widening
`hasRole` and `hasPlan` pointwise never hides a visible entry. -/
theorem spec_c9_monotone_in_access
    (hR hR' : List UserRole → Bool) (hP hP' : PlanTier → Bool)
    (hRmono : ∀ rs, hR rs = true → hR' rs = true)
    (hPmono : ∀ p, hP p = true → hP' p = true)
    (e : NavItem) (he : e ∈ getVisibleNav hR hP) :
    e ∈ getVisibleNav hR' hP' := by
  rw [getVisibleNav, getVisibleNavOf, List.mem_filter] at he ⊢
  obtain ⟨hnav, hv⟩ := he
  refine ⟨hnav, ?_⟩
  rw [navItemVisibleOf_eq_true_iff] at hv ⊢
  obtain ⟨m, hm, hrole, hplan⟩ := hv
  exact ⟨m, hm, fun rs h1 h2 => hRmono rs (hrole rs h1 h2),
    fun p h1 => hPmono p (hplan p h1)⟩

/-- Witness for C9: an admin-only acceptance widened to everything keeps the
dashboard entry visible. -/
theorem spec_c9_witness :
    (∀ rs : List UserRole,
        (fun l : List UserRole => l.contains UserRole.admin) rs = true →
          (fun _ : List UserRole => true) rs = true) ∧
      (∀ p : PlanTier, (fun _ : PlanTier => true) p = true →
        (fun _ : PlanTier => true) p = true) ∧
      dashItem ∈ getVisibleNav (fun l => l.contains UserRole.admin)
        (fun _ => true) ∧
      dashItem ∈ getVisibleNav (fun _ => true) (fun _ => true) :=
  ⟨fun _ _ => rfl, fun _ h => h, by decide,
    spec_c9_monotone_in_access
      (fun l => l.contains UserRole.admin) (fun _ => true)
      (fun _ => true) (fun _ => true)
      (fun _ _ => rfl) (fun _ h => h) dashItem (by decide)⟩

end ModularMonolith
